import Mathlib

/-!
Verification of the Booking-system repository's core logic:
the room-configuration generator (`RoomConfiguration.tsx`) and the
pricing / booking-validation logic (`TourDetail.tsx`), shallowly
embedded in Lean.

JavaScript numbers are modelled as `ℚ`; `Math.round` as `jsRound`
(floor of x + 1/2, which is how JS rounds); the JavaScript `||`
fallback on possibly-undefined numeric values as `jsNumOr` (both
`undefined` and `0` are falsy); arrays are always truthy, so an
`a?.xs || b` fallback on an array-valued field is `Option.getD`.
-/

/-- JavaScript `Math.round`: round half up. -/
def jsRound (q : ℚ) : ℤ := (q + 1/2).floor

/-- JavaScript `x || d` where `x` is a possibly-undefined number:
both `undefined` and `0` are falsy and select the fallback `d`. -/
def jsNumOr (x : Option ℚ) (d : ℚ) : ℚ :=
  match x with
  | some v => if v = 0 then d else v
  | none => d

/-- The `RoomConfig` record of `RoomConfiguration.tsx`. -/
structure RoomConfig where
  id : String
  single : ℕ
  double : ℕ
  twin : ℕ
  priceDifference : ℚ
deriving DecidableEq, Repr

/-- Innermost loop of `generateRoomConfigurations`: `twin` runs from 0 to
⌊(pax - single - 2*double)/2⌋ and the triple is kept when the `isValid`
check `single + double * 2 + twin * 2 === pax` passes. -/
def twinLoop (pax s d : ℕ) : List (ℕ × ℕ × ℕ) :=
  (List.range ((pax - s - 2 * d) / 2 + 1)).filterMap fun t =>
    if s + 2 * d + 2 * t = pax then some (s, d, t) else none

/-- Middle loop: `double` runs from 0 to ⌊(pax - single)/2⌋. -/
def doubleLoop (pax s : ℕ) : List (ℕ × ℕ × ℕ) :=
  (List.range ((pax - s) / 2 + 1)).flatMap (twinLoop pax s)

/-- Outer loop of the enumeration: `single` runs from 0 to pax. -/
def roomTriples (pax : ℕ) : List (ℕ × ℕ × ℕ) :=
  (List.range (pax + 1)).flatMap (doubleLoop pax)

/-- The `configs.push({ id: config-id++, ... })` loop body: each kept
triple becomes a `RoomConfig` with a sequentially numbered id and
`priceDifference = (single + double + twin) * 500`. -/
def attachIds : ℕ → List (ℕ × ℕ × ℕ) → List RoomConfig
  | _, [] => []
  | i, (s, d, t) :: rest =>
      { id := "config-" ++ toString i, single := s, double := d, twin := t,
        priceDifference := ((s + d + t) * 500 : ℕ) } :: attachIds (i + 1) rest

/-- Comparison used by `configs.sort((a, b) => a.priceDifference - b.priceDifference)`. -/
def configLE (a b : RoomConfig) : Prop := a.priceDifference ≤ b.priceDifference

instance : DecidableRel configLE := fun a b =>
  inferInstanceAs (Decidable (a.priceDifference ≤ b.priceDifference))

instance : IsTotal RoomConfig configLE := ⟨fun a b => le_total a.priceDifference b.priceDifference⟩

instance : IsTrans RoomConfig configLE := ⟨fun _ _ _ h h' => le_trans h h'⟩

/-- `generateRoomConfigurations` of `RoomConfiguration.tsx`: enumerate all
valid triples, attach ids and per-room cost, and sort ascending by
`priceDifference` (`Array.prototype.sort` with a consistent comparator is
a stable sort by that order, modelled here by insertion sort). -/
def generateRoomConfigurations (pax : ℕ) : List RoomConfig :=
  List.insertionSort configLE (attachIds 0 (roomTriples pax))

example : generateRoomConfigurations 0 =
    [{ id := "config-0", single := 0, double := 0, twin := 0, priceDifference := 0 }] := by
  decide

example : (generateRoomConfigurations 4).length = 6 := by decide

/-- The valid-triple projection of a generated configuration. -/
def roomTriple (c : RoomConfig) : ℕ × ℕ × ℕ := (c.single, c.double, c.twin)

theorem mem_twinLoop {pax s d : ℕ} {x : ℕ × ℕ × ℕ} :
    x ∈ twinLoop pax s d ↔ ∃ t, x = (s, d, t) ∧ s + 2 * d + 2 * t = pax := by
  simp only [twinLoop, List.mem_filterMap, List.mem_range]
  constructor
  · rintro ⟨t, ht, h⟩
    split at h
    · rename_i hv
      exact ⟨t, (Option.some.injEq _ _ ▸ h).symm, hv⟩
    · exact absurd h (by simp)
  · rintro ⟨t, rfl, hv⟩
    exact ⟨t, by omega, by simp [hv]⟩

theorem mem_doubleLoop {pax s : ℕ} {x : ℕ × ℕ × ℕ} :
    x ∈ doubleLoop pax s ↔ ∃ d t, x = (s, d, t) ∧ s + 2 * d + 2 * t = pax := by
  simp only [doubleLoop, List.mem_flatMap, List.mem_range, mem_twinLoop]
  constructor
  · rintro ⟨d, hd, t, rfl, hv⟩
    exact ⟨d, t, rfl, hv⟩
  · rintro ⟨d, t, rfl, hv⟩
    exact ⟨d, by omega, t, rfl, hv⟩

theorem mem_roomTriples {pax : ℕ} {x : ℕ × ℕ × ℕ} :
    x ∈ roomTriples pax ↔ x.1 + 2 * x.2.1 + 2 * x.2.2 = pax := by
  simp only [roomTriples, List.mem_flatMap, List.mem_range, mem_doubleLoop]
  constructor
  · rintro ⟨s, hs, d, t, rfl, hv⟩
    exact hv
  · intro hv
    obtain ⟨s, d, t⟩ := x
    exact ⟨s, by omega, d, t, rfl, hv⟩

theorem twinLoop_nodup (pax s d : ℕ) : (twinLoop pax s d).Nodup := by
  refine List.Nodup.filterMap ?_ (List.nodup_range _)
  intro t t' b hb hb'
  simp only [Option.mem_def] at hb hb'
  split at hb
  · split at hb'
    · cases hb; cases hb'; rfl
    · exact absurd hb' (by simp)
  · exact absurd hb (by simp)

theorem doubleLoop_nodup (pax s : ℕ) : (doubleLoop pax s).Nodup := by
  refine List.nodup_flatMap.2 ⟨fun d _ => twinLoop_nodup pax s d, ?_⟩
  refine (List.pairwise_lt_range _).imp ?_
  intro d d' hdd x hx hx'
  obtain ⟨t, rfl, -⟩ := mem_twinLoop.1 hx
  obtain ⟨t', he, -⟩ := mem_twinLoop.1 hx'
  exact absurd (congrArg (fun y => y.2.1) he) (by simpa using hdd.ne)

theorem roomTriples_nodup (pax : ℕ) : (roomTriples pax).Nodup := by
  refine List.nodup_flatMap.2 ⟨fun s _ => doubleLoop_nodup pax s, ?_⟩
  refine (List.pairwise_lt_range _).imp ?_
  intro s s' hss x hx hx'
  obtain ⟨d, t, rfl, -⟩ := mem_doubleLoop.1 hx
  obtain ⟨d', t', he, -⟩ := mem_doubleLoop.1 hx'
  exact absurd (congrArg (fun y => y.1) he) (by simpa using hss.ne)

theorem attachIds_map_roomTriple (i : ℕ) (l : List (ℕ × ℕ × ℕ)) :
    (attachIds i l).map roomTriple = l := by
  induction l generalizing i with
  | nil => rfl
  | cons x rest ih =>
      obtain ⟨s, d, t⟩ := x
      simp [attachIds, roomTriple, ih]

theorem priceDifference_of_mem_attachIds {i : ℕ} {l : List (ℕ × ℕ × ℕ)} {c : RoomConfig}
    (hc : c ∈ attachIds i l) :
    c.priceDifference = ((c.single + c.double + c.twin) * 500 : ℕ) := by
  induction l generalizing i with
  | nil => cases hc
  | cons x rest ih =>
      obtain ⟨s, d, t⟩ := x
      rcases List.mem_cons.1 hc with h | h
      · subst h; rfl
      · exact ih h

theorem mem_generate_iff {pax : ℕ} {c : RoomConfig} :
    c ∈ generateRoomConfigurations pax ↔ c ∈ attachIds 0 (roomTriples pax) :=
  (List.perm_insertionSort configLE _).mem_iff

theorem generate_sound {pax : ℕ} {c : RoomConfig}
    (hc : c ∈ generateRoomConfigurations pax) :
    c.single + 2 * c.double + 2 * c.twin = pax := by
  have h := mem_generate_iff.1 hc
  have hm : roomTriple c ∈ (attachIds 0 (roomTriples pax)).map roomTriple :=
    List.mem_map_of_mem _ h
  rw [attachIds_map_roomTriple] at hm
  exact mem_roomTriples.1 hm

theorem generate_complete {pax s d t : ℕ} (h : s + 2 * d + 2 * t = pax) :
    ∃ c ∈ generateRoomConfigurations pax, c.single = s ∧ c.double = d ∧ c.twin = t := by
  have hm : (s, d, t) ∈ roomTriples pax := mem_roomTriples.2 h
  have : (s, d, t) ∈ (attachIds 0 (roomTriples pax)).map roomTriple := by
    rw [attachIds_map_roomTriple]; exact hm
  obtain ⟨c, hc, he⟩ := List.mem_map.1 this
  refine ⟨c, mem_generate_iff.2 hc, ?_, ?_, ?_⟩
  · exact congrArg (fun y => y.1) he
  · exact congrArg (fun y => y.2.1) he
  · exact congrArg (fun y => y.2.2) he

theorem generate_nodup_triples (pax : ℕ) :
    ((generateRoomConfigurations pax).map roomTriple).Nodup := by
  have hp : List.Perm ((generateRoomConfigurations pax).map roomTriple)
      ((attachIds 0 (roomTriples pax)).map roomTriple) :=
    (List.perm_insertionSort configLE _).map roomTriple
  rw [attachIds_map_roomTriple] at hp
  exact hp.nodup_iff.2 (roomTriples_nodup pax)

theorem generate_priceDifference {pax : ℕ} {c : RoomConfig}
    (hc : c ∈ generateRoomConfigurations pax) :
    c.priceDifference = ((c.single + c.double + c.twin) * 500 : ℕ) :=
  priceDifference_of_mem_attachIds (mem_generate_iff.1 hc)

theorem generate_sorted (pax : ℕ) :
    (generateRoomConfigurations pax).Sorted configLE :=
  List.sorted_insertionSort configLE _

theorem head_le_of_sorted {l : List RoomConfig} (hs : l.Sorted configLE) {a b : RoomConfig}
    (ha : l.head? = some a) (hb : b ∈ l) : configLE a b := by
  cases l with
  | nil => cases hb
  | cons x xs =>
      obtain rfl : x = a := by simpa using ha
      rcases List.mem_cons.1 hb with rfl | h
      · exact le_rfl
      · exact (List.sorted_cons.1 hs).1 b h

/-- The 2-twin configuration produced for partySize 4. -/
def cfgTwoTwin : RoomConfig :=
  { id := "config-0", single := 0, double := 0, twin := 2, priceDifference := 1000 }

/-- The 1-double + 1-twin configuration produced for partySize 4. -/
def cfgDoubleTwin : RoomConfig :=
  { id := "config-1", single := 0, double := 1, twin := 1, priceDifference := 1000 }

/-- The 2-double configuration produced for partySize 4. -/
def cfgTwoDouble : RoomConfig :=
  { id := "config-2", single := 0, double := 2, twin := 0, priceDifference := 1000 }

/-- The 4-single configuration produced for partySize 4. -/
def cfgFourSingle : RoomConfig :=
  { id := "config-5", single := 4, double := 0, twin := 0, priceDifference := 2000 }

/-- C1: For every partySize ≥ 0, `generateRoomConfigurations` returns exactly
the set of non-negative triples (single, double, twin) with
single + 2*double + 2*twin = partySize: every returned configuration
satisfies the equation, every satisfying triple appears, no triple appears
twice, and `generate 0` is exactly the single all-zero configuration. -/
theorem C1_generate_exactly_valid_triples (pax : ℕ) :
    (∀ c ∈ generateRoomConfigurations pax, c.single + 2 * c.double + 2 * c.twin = pax) ∧
    (∀ s d t : ℕ, s + 2 * d + 2 * t = pax →
      ∃ c ∈ generateRoomConfigurations pax, c.single = s ∧ c.double = d ∧ c.twin = t) ∧
    ((generateRoomConfigurations pax).map roomTriple).Nodup ∧
    generateRoomConfigurations 0 =
      [{ id := "config-0", single := 0, double := 0, twin := 0, priceDifference := 0 }] := by
  refine ⟨fun c hc => generate_sound hc, fun s d t h => generate_complete h,
    generate_nodup_triples pax, by decide⟩

/-- Witness for C1 at partySize 4: the triple (0, 2, 0) satisfies the equation
and a configuration with those room counts is returned. -/
theorem C1_witness :
    (0 : ℕ) + 2 * 2 + 2 * 0 = 4 ∧
    ∃ c ∈ generateRoomConfigurations 4, c.single = 0 ∧ c.double = 2 ∧ c.twin = 0 :=
  ⟨by decide, (C1_generate_exactly_valid_triples 4).2.1 0 2 0 (by decide)⟩

/-- C4: For every partySize ≥ 0, the returned sequence is sorted
non-decreasing by priceDifference, so a configuration with minimal cost
appears first. -/
theorem C4_generate_sorted_by_priceDifference (pax : ℕ) :
    (generateRoomConfigurations pax).Sorted configLE ∧
    ∀ c0 c, (generateRoomConfigurations pax).head? = some c0 →
      c ∈ generateRoomConfigurations pax → c0.priceDifference ≤ c.priceDifference := by
  refine ⟨generate_sorted pax, fun c0 c h0 hc => ?_⟩
  exact head_le_of_sorted (generate_sorted pax) h0 hc

/-- Witness for C4 at partySize 4: the head of the result is the 2-twin
configuration at cost 1000, and it costs no more than the 4-single
configuration at cost 2000. -/
theorem C4_witness :
    cfgTwoTwin.priceDifference ≤ cfgFourSingle.priceDifference :=
  (C4_generate_sorted_by_priceDifference 4).2 _ _ (by decide) (by decide)

/-- C5 counterexample: for partySize 4 the cheapest configuration is not
unique: the 1-double + 1-twin configuration is also returned, also has the
minimal priceDifference 1000, and is not the 2-double configuration. -/
theorem C5_counterexample :
    cfgDoubleTwin ∈ generateRoomConfigurations 4 ∧
    cfgDoubleTwin.priceDifference = 1000 ∧
    ((generateRoomConfigurations 4).all fun c =>
      decide ((1000 : ℚ) ≤ c.priceDifference)) = true ∧
    cfgDoubleTwin.double ≠ 2 := by
  decide

/-- C5 amended: `generateRoomConfigurations 4` includes 4 singles (cost 2000),
2 doubles (cost 1000) and 2 singles + 1 double (cost 1500); the cheapest
configurations for partySize 4 are exactly the two-room ones — 2 doubles,
1 double + 1 twin, or 2 twins — all at priceDifference 1000, the 2-double
configuration among them (it is not unique). -/
theorem C5_amended_generate_four :
    (∃ c ∈ generateRoomConfigurations 4,
      c.single = 4 ∧ c.double = 0 ∧ c.twin = 0 ∧ c.priceDifference = 2000) ∧
    (∃ c ∈ generateRoomConfigurations 4,
      c.single = 0 ∧ c.double = 2 ∧ c.twin = 0 ∧ c.priceDifference = 1000) ∧
    (∃ c ∈ generateRoomConfigurations 4,
      c.single = 2 ∧ c.double = 1 ∧ c.twin = 0 ∧ c.priceDifference = 1500) ∧
    (∀ c ∈ generateRoomConfigurations 4, 1000 ≤ c.priceDifference ∧
      (c.priceDifference = 1000 ↔ c.single = 0 ∧ c.double + c.twin = 2)) := by
  decide

/-- Witness for C5 amended: the 2-double configuration is returned and the
minimality conjunct holds at it. -/
theorem C5_witness :
    (1000 : ℚ) ≤ cfgTwoDouble.priceDifference :=
  (C5_amended_generate_four.2.2.2 _ (by decide)).1

/-- C6: every returned configuration has
priceDifference = (single + double + twin) * 500; it is non-negative, and
two configurations for the same partySize with the same room count have the
same priceDifference. -/
theorem C6_priceDifference_per_room (pax : ℕ) :
    ∀ c ∈ generateRoomConfigurations pax,
      c.priceDifference = ((c.single + c.double + c.twin) * 500 : ℕ) ∧
      0 ≤ c.priceDifference ∧
      ∀ c' ∈ generateRoomConfigurations pax,
        c'.single + c'.double + c'.twin = c.single + c.double + c.twin →
        c'.priceDifference = c.priceDifference := by
  intro c hc
  refine ⟨generate_priceDifference hc, ?_, ?_⟩
  · rw [generate_priceDifference hc]
    exact_mod_cast Nat.zero_le _
  · intro c' hc' he
    rw [generate_priceDifference hc, generate_priceDifference hc', he]

/-- Witness for C6 at partySize 4: the 2-twin configuration's cost is
2 * 500 = 1000, non-negative, and the 2-double configuration with the same
room count has the same cost. -/
theorem C6_witness :
    cfgTwoTwin.priceDifference =
      ((cfgTwoTwin.single + cfgTwoTwin.double + cfgTwoTwin.twin) * 500 : ℕ) :=
  (C6_priceDifference_per_room 4 _ (by decide)).1

/-! ## Pricing data model (`App.tsx` types, `api.ts` Departure interface) -/

/-- A pricing tier `{ pax, pricePerPerson }`. -/
structure PricingTier where
  pax : ℕ
  pricePerPerson : ℚ
deriving DecidableEq, Repr

/-- An add-on `{ id, name, price }`. -/
structure Addon where
  id : String
  name : String
  price : ℚ
deriving DecidableEq, Repr

/-- A scheduled departure. Per the `api.ts` `Departure` interface,
`pricingTiers`, `childWithBed`, `childWithoutBed` and `addons` are
optional fields; `date` and `pricePerPerson` are required. -/
structure Departure where
  date : String
  pricePerPerson : ℚ
  pricingTiers : Option (List PricingTier)
  childWithBed : Option ℚ
  childWithoutBed : Option ℚ
  addons : Option (List Addon)
deriving DecidableEq, Repr

/-- The tour record (the fields of `App.tsx`'s `Tour` type that the price
computation reads; `departures` stands for
`departureSchedule?.departures`). -/
structure Tour where
  id : String
  pricePerPerson : ℚ
  pricingTiers : List PricingTier
  childWithBed : ℚ
  childWithoutBed : ℚ
  addons : List Addon
  minTravelers : ℕ
  maxTravelers : ℕ
  departures : Option (List Departure)
deriving DecidableEq, Repr

/-- `getSelectedDeparture` of `TourDetail.tsx`: `null` without a selected
date or schedule, otherwise the first departure whose `date` matches. -/
def getSelectedDeparture (tour : Tour) (selectedDate : String) : Option Departure :=
  if selectedDate = "" then none
  else match tour.departures with
    | none => none
    | some deps => deps.find? fun d => d.date == selectedDate

/-- `getPriceForPax` of `TourDetail.tsx`: departure tiers override tour
tiers (an array, even empty, is truthy); with no or empty tiers the flat
`selectedDeparture?.pricePerPerson || tour.pricePerPerson || 0` applies;
otherwise the exact-pax tier, else the last tier, with a zero/undefined
tier rate falling through to the flat rate. -/
def getPriceForPax (dep : Option Departure) (tour : Tour) (pax : ℕ) : ℚ :=
  let pricingTiers := (dep.bind Departure.pricingTiers).getD tour.pricingTiers
  let flat := jsNumOr (dep.map Departure.pricePerPerson) (jsNumOr (some tour.pricePerPerson) 0)
  if pricingTiers.length = 0 then flat
  else
    jsNumOr
      (((pricingTiers.find? fun t => t.pax == pax).orElse
        fun _ => pricingTiers.getLast?).map PricingTier.pricePerPerson)
      flat

/-- `basePrice = Math.round(adults * getPriceForPax(adults))`. -/
def basePrice (dep : Option Departure) (tour : Tour) (adults : ℕ) : ℤ :=
  jsRound (adults * getPriceForPax dep tour adults)

/-- `childWithBedPrice = selectedDeparture?.childWithBed || tour.childWithBed`. -/
def childWithBedPrice (dep : Option Departure) (tour : Tour) : ℚ :=
  jsNumOr (dep.bind Departure.childWithBed) tour.childWithBed

/-- `childWithoutBedPrice = selectedDeparture?.childWithoutBed || tour.childWithoutBed`. -/
def childWithoutBedPrice (dep : Option Departure) (tour : Tour) : ℚ :=
  jsNumOr (dep.bind Departure.childWithoutBed) tour.childWithoutBed

/-- `childrenPrice = Math.round(childrenWithBed * childWithBedPrice +
childrenWithoutBed * childWithoutBedPrice)`. -/
def childrenPrice (dep : Option Departure) (tour : Tour)
    (childrenWithBed childrenWithoutBed : ℕ) : ℤ :=
  jsRound (childrenWithBed * childWithBedPrice dep tour +
    childrenWithoutBed * childWithoutBedPrice dep tour)

/-- `roomPrice = selectedRoomConfig ? Math.round(selectedRoomConfig.priceDifference) : 0`. -/
def roomPrice (selectedRoomConfig : Option RoomConfig) : ℤ :=
  match selectedRoomConfig with
  | some c => jsRound c.priceDifference
  | none => 0

/-- `availableAddons = selectedDeparture?.addons || tour.addons`
(an array, even empty, is truthy). -/
def availableAddons (dep : Option Departure) (tour : Tour) : List Addon :=
  (dep.bind Departure.addons).getD tour.addons

/-- `addonsPrice = Math.round(selectedAddons.reduce((sum, addonId) =>
sum + (availableAddons.find(a => a.id === addonId)?.price || 0), 0))`. -/
def addonsPrice (dep : Option Departure) (tour : Tour) (selectedAddons : List String) : ℤ :=
  jsRound (selectedAddons.foldl
    (fun sum addonId =>
      sum + jsNumOr
        (((availableAddons dep tour).find? fun a => a.id == addonId).map Addon.price) 0)
    0)

/-- `totalPrice = Math.round(basePrice + childrenPrice + roomPrice + addonsPrice)`. -/
def totalPrice (dep : Option Departure) (tour : Tour)
    (adults childrenWithBed childrenWithoutBed : ℕ)
    (selectedRoomConfig : Option RoomConfig) (selectedAddons : List String) : ℤ :=
  jsRound ((basePrice dep tour adults + childrenPrice dep tour childrenWithBed childrenWithoutBed +
    roomPrice selectedRoomConfig + addonsPrice dep tour selectedAddons : ℤ) : ℚ)

theorem jsRound_eq_floor (q : ℚ) : jsRound q = ⌊q + 1/2⌋ := by
  rw [jsRound, Rat.floor_def', ← Rat.floor_def]

theorem jsRound_intCast (n : ℤ) : jsRound (n : ℚ) = n := by
  rw [jsRound_eq_floor, Int.floor_eq_iff]
  constructor
  · linarith
  · linarith

/-- The end-to-end scenario tour of C3: a single pricing tier
{pax: 2, pricePerPerson: 25000}. -/
def tourC3 : Tour :=
  { id := "tour-c3", pricePerPerson := 0,
    pricingTiers := [{ pax := 2, pricePerPerson := 25000 }],
    childWithBed := 0, childWithoutBed := 0, addons := [],
    minTravelers := 1, maxTravelers := 10, departures := none }

/-- The room configuration selected in the C3 scenario:
{single: 0, double: 1, twin: 0, priceDifference: 500}. -/
def cfgC3 : RoomConfig :=
  { id := "config-c3", single := 0, double := 1, twin := 0, priceDifference := 500 }

/-- C3: basePrice, childrenPrice, roomPrice and addonsPrice are each
individually rounded to integers, and totalPrice equals their sum; in the
scenario with the single tier {pax: 2, price: 25000}, adults = 2, no
children, a selected configuration with priceDifference 500 and no
add-ons, the breakdown is 50000 / 0 / 500 / 0 with total 50500. -/
theorem C3_total_is_sum_of_rounded_components
    (dep : Option Departure) (tour : Tour) (adults cwb cwob : ℕ)
    (cfg : Option RoomConfig) (sel : List String) :
    (totalPrice dep tour adults cwb cwob cfg sel =
      basePrice dep tour adults + childrenPrice dep tour cwb cwob +
        roomPrice cfg + addonsPrice dep tour sel) ∧
    basePrice none tourC3 2 = 50000 ∧
    childrenPrice none tourC3 0 0 = 0 ∧
    roomPrice (some cfgC3) = 500 ∧
    addonsPrice none tourC3 [] = 0 ∧
    totalPrice none tourC3 2 0 0 (some cfgC3) [] = 50500 := by
  refine ⟨?_, ?_, ?_, ?_, ?_, ?_⟩
  · unfold totalPrice
    exact jsRound_intCast _
  all_goals
    norm_num [totalPrice, basePrice, childrenPrice, roomPrice, addonsPrice, getPriceForPax,
      childWithBedPrice, childWithoutBedPrice, availableAddons, jsNumOr, jsRound,
      Rat.floor_def', tourC3, cfgC3, List.find?]

/-- The tier the code resolves: the exact-pax match, else the last tier,
and no tier at all when the resolved tier list is empty. -/
def codeTier (dep : Option Departure) (tour : Tour) (adults : ℕ) : Option PricingTier :=
  let pricingTiers := (dep.bind Departure.pricingTiers).getD tour.pricingTiers
  if pricingTiers.length = 0 then none
  else (pricingTiers.find? fun t => t.pax == adults).orElse fun _ => pricingTiers.getLast?

/-- First-match-wins resolution over an ordered list of candidate
per-person rates: the first present non-zero rate wins, otherwise 0
(the precedence-chain formulation of the spec's design note). -/
def resolveRate : List (Option ℚ) → ℚ
  | [] => 0
  | some v :: rest => if v = 0 then resolveRate rest else v
  | none :: rest => resolveRate rest

theorem jsNumOr_eq_resolveRate (x : Option ℚ) (rest : List (Option ℚ)) :
    jsNumOr x (resolveRate rest) = resolveRate (x :: rest) := by
  cases x <;> simp [jsNumOr, resolveRate]

theorem resolveRate_three (a b : Option ℚ) (c : ℚ) :
    resolveRate [a, b, some c] = jsNumOr a (jsNumOr b (jsNumOr (some c) 0)) := by
  simp only [← jsNumOr_eq_resolveRate]
  rfl

/-- The claim-C2 pricing-tier tour: [{pax: 2, 20000}, {pax: 4, 18000}]. -/
def tourC2 : Tour :=
  { id := "tour-c2", pricePerPerson := 0,
    pricingTiers := [{ pax := 2, pricePerPerson := 20000 },
      { pax := 4, pricePerPerson := 18000 }],
    childWithBed := 0, childWithoutBed := 0, addons := [],
    minTravelers := 1, maxTravelers := 10, departures := none }

/-- A tour whose only tier has pricePerPerson 0 next to a flat tour rate
of 100: the input on which claim C2's resolution differs from the code. -/
def tourC2x : Tour :=
  { id := "tour-c2x", pricePerPerson := 100,
    pricingTiers := [{ pax := 3, pricePerPerson := 0 }],
    childWithBed := 0, childWithoutBed := 0, addons := [],
    minTravelers := 1, maxTravelers := 10, departures := none }

/-- The per-person rate resolution exactly as claim C2 words it: the tier
whose pax equals adults; if none matches, the last tier (the largest pax
in ascending order); if no tiers exist, the departure's flat rate, else
the tour's flat rate. -/
def claimC2Rate (dep : Option Departure) (tour : Tour) (adults : ℕ) : ℚ :=
  let tiers := (dep.bind Departure.pricingTiers).getD tour.pricingTiers
  match tiers.find? fun t => t.pax == adults with
  | some t => t.pricePerPerson
  | none =>
      match tiers.getLast? with
      | some t => t.pricePerPerson
      | none =>
          match dep.map Departure.pricePerPerson with
          | some v => v
          | none => tour.pricePerPerson

/-- C2 counterexample: with the single tier {pax: 3, pricePerPerson: 0}
and tour flat rate 100, the claim's resolution picks the matching tier's
rate 0, giving basePrice round(3*0) = 0; the code treats the tier's 0 as
falsy, falls through to the flat rate 100, and yields basePrice 300. -/
theorem C2_counterexample :
    claimC2Rate none tourC2x 3 = 0 ∧
    jsRound (3 * claimC2Rate none tourC2x 3) = 0 ∧
    getPriceForPax none tourC2x 3 = 100 ∧
    basePrice none tourC2x 3 = 300 := by
  refine ⟨?_, ?_, ?_, ?_⟩ <;>
    norm_num [claimC2Rate, getPriceForPax, basePrice, jsNumOr, jsRound,
      Rat.floor_def', tourC2x, List.find?]

/-- C2 amended: the code's per-person rate is the first-match-wins chain
over [resolved tier's rate (exact pax match, else last tier) when tiers
are non-empty; departure's flat rate; tour's flat rate], where an absent
or zero entry falls through to the next (JavaScript falsy semantics), and
basePrice = round(adults * rate); with tiers [{pax:2,20000},{pax:4,18000}]
and adults = 3 the last tier applies: basePrice = round(3*18000) = 54000. -/
theorem C2_amended_rate_resolution (dep : Option Departure) (tour : Tour) (adults : ℕ) :
    (getPriceForPax dep tour adults =
      resolveRate [(codeTier dep tour adults).map PricingTier.pricePerPerson,
        dep.map Departure.pricePerPerson, some tour.pricePerPerson]) ∧
    basePrice dep tour adults = jsRound (adults * getPriceForPax dep tour adults) ∧
    basePrice none tourC2 3 = 54000 := by
  refine ⟨?_, rfl, ?_⟩
  · rw [resolveRate_three]
    unfold getPriceForPax codeTier
    by_cases h : ((dep.bind Departure.pricingTiers).getD tour.pricingTiers).length = 0
    · simp [h, jsNumOr]
    · simp [h]
  · norm_num [basePrice, getPriceForPax, jsNumOr, jsRound, Rat.floor_def', tourC2, List.find?,
      Option.orElse, show ((2 : ℕ) == 3) = false from rfl, show ((4 : ℕ) == 3) = false from rfl]

/-- The departure used in the C7 counterexample: its `childWithBed` field
is present and equal to 0. -/
def depC7 : Departure :=
  { date := "2026-01-10", pricePerPerson := 50, pricingTiers := none,
    childWithBed := some 0, childWithoutBed := none, addons := none }

/-- The tour used in the C7 counterexample, with tour-level
childWithBed = 5000. -/
def tourC7 : Tour :=
  { id := "tour-c7", pricePerPerson := 0, pricingTiers := [],
    childWithBed := 5000, childWithoutBed := 300, addons := [],
    minTravelers := 1, maxTravelers := 10, departures := some [depC7] }

/-- C7 counterexample: the departure's `childWithBed` is present (value 0),
yet the code uses the tour-level 5000 — a present-but-zero departure field
is falsy and is not used, contradicting the claim that every present
departure field overrides the tour default. -/
theorem C7_counterexample :
    depC7.childWithBed = some 0 ∧
    childWithBedPrice (some depC7) tourC7 = 5000 ∧
    childrenPrice (some depC7) tourC7 1 0 = 5000 ∧
    (0 : ℚ) ≠ 5000 := by
  refine ⟨rfl, ?_, ?_, by norm_num⟩ <;>
    norm_num [childWithBedPrice, childWithoutBedPrice, childrenPrice, jsNumOr, jsRound,
      Rat.floor_def', depC7, tourC7]

/-- C7 amended: a departure field overrides the tour default as follows:
a present non-zero numeric field (childWithBed, childWithoutBed,
pricePerPerson) is used; an absent or zero numeric field falls back to the
tour-level value; an array field (pricingTiers, addons) is used whenever
present, even when empty — in particular present departure tiers make the
tour's tiers irrelevant, and a present-but-empty tier list resolves to the
departure's flat rate when that is non-zero. -/
theorem C7_amended_departure_overrides (dep : Departure) (tour : Tour) :
    (∀ v : ℚ, dep.childWithBed = some v → v ≠ 0 →
      childWithBedPrice (some dep) tour = v) ∧
    (dep.childWithBed = none → childWithBedPrice (some dep) tour = tour.childWithBed) ∧
    (∀ v : ℚ, dep.childWithoutBed = some v → v ≠ 0 →
      childWithoutBedPrice (some dep) tour = v) ∧
    (dep.childWithoutBed = none →
      childWithoutBedPrice (some dep) tour = tour.childWithoutBed) ∧
    (∀ l, dep.addons = some l → availableAddons (some dep) tour = l) ∧
    (dep.addons = none → availableAddons (some dep) tour = tour.addons) ∧
    (∀ (tour' : Tour) (adults : ℕ), dep.pricingTiers ≠ none →
      tour.pricePerPerson = tour'.pricePerPerson →
      getPriceForPax (some dep) tour adults = getPriceForPax (some dep) tour' adults) ∧
    (∀ adults : ℕ, dep.pricingTiers = some [] → dep.pricePerPerson ≠ 0 →
      getPriceForPax (some dep) tour adults = dep.pricePerPerson) := by
  refine ⟨?_, ?_, ?_, ?_, ?_, ?_, ?_, ?_⟩
  · intro v hv hnz
    simp [childWithBedPrice, jsNumOr, hv, hnz]
  · intro hv
    simp [childWithBedPrice, jsNumOr, hv]
  · intro v hv hnz
    simp [childWithoutBedPrice, jsNumOr, hv, hnz]
  · intro hv
    simp [childWithoutBedPrice, jsNumOr, hv]
  · intro l hl
    simp [availableAddons, hl]
  · intro hl
    simp [availableAddons, hl]
  · intro tour' adults hne hp
    unfold getPriceForPax
    cases hdt : dep.pricingTiers with
    | none => exact absurd hdt hne
    | some l => simp [hdt, hp]
  · intro adults he hnz
    simp [getPriceForPax, he, jsNumOr, hnz]

/-- A departure exercising every override direction for the C7 witness. -/
def depC7w : Departure :=
  { date := "2026-03-01", pricePerPerson := 70, pricingTiers := some [],
    childWithBed := some 1200, childWithoutBed := none, addons := some [] }

/-- Witness for C7 amended at a concrete departure: a present non-zero
childWithBed (1200) is used, an absent childWithoutBed falls back to the
tour value, a present-but-empty addons array is used, and a present-but-
empty tier list resolves to the departure's flat rate 70. -/
theorem C7_witness :
    childWithBedPrice (some depC7w) tourC7 = 1200 ∧
    childWithoutBedPrice (some depC7w) tourC7 = tourC7.childWithoutBed ∧
    availableAddons (some depC7w) tourC7 = [] ∧
    getPriceForPax (some depC7w) tourC7 5 = 70 := by
  refine ⟨?_, ?_, ?_, ?_⟩
  · exact (C7_amended_departure_overrides depC7w tourC7).1 1200 rfl (by norm_num)
  · exact (C7_amended_departure_overrides depC7w tourC7).2.2.2.1 rfl
  · exact (C7_amended_departure_overrides depC7w tourC7).2.2.2.2.1 [] rfl
  · exact (C7_amended_departure_overrides depC7w tourC7).2.2.2.2.2.2.2 5 rfl (by norm_num [depC7w])

theorem jsNumOr_getD (y : Option ℚ) : jsNumOr y 0 = y.getD 0 := by
  cases y with
  | none => rfl
  | some v =>
      by_cases h : v = 0 <;> simp [jsNumOr, h]

theorem foldl_add_sum (g : String → ℚ) (init : ℚ) (sel : List String) :
    sel.foldl (fun s x => s + g x) init = init + (sel.map g).sum := by
  induction sel generalizing init with
  | nil => simp
  | cons x rest ih =>
      rw [List.foldl_cons, ih, List.map_cons, List.sum_cons]
      ring

theorem sum_map_filter_or (l : List Addon) (p q : Addon → Bool)
    (hpq : ∀ a ∈ l, ¬(p a = true ∧ q a = true)) :
    ((l.filter fun a => p a || q a).map Addon.price).sum =
      ((l.filter p).map Addon.price).sum + ((l.filter q).map Addon.price).sum := by
  induction l with
  | nil => simp
  | cons b rest ih =>
      have hb := hpq b (List.mem_cons_self b rest)
      have hr : ∀ a ∈ rest, ¬(p a = true ∧ q a = true) :=
        fun a ha => hpq a (List.mem_cons_of_mem b ha)
      cases hp : p b with
      | true =>
          cases hq : q b with
          | true => exact absurd ⟨hp, hq⟩ hb
          | false =>
              simp [List.filter_cons, hp, hq, ih hr]
              ring
      | false =>
          cases hq : q b with
          | true =>
              simp [List.filter_cons, hp, hq, ih hr]
              ring
          | false =>
              simp [List.filter_cons, hp, hq, ih hr]

theorem sum_filter_id_eq_get_find (x : String) (l : List Addon)
    (hids : (l.map Addon.id).Nodup) :
    ((l.filter fun a => a.id == x).map Addon.price).sum =
      ((l.find? fun a => a.id == x).map Addon.price).getD 0 := by
  induction l with
  | nil => simp
  | cons b rest ih =>
      rw [List.map_cons, List.nodup_cons] at hids
      cases hb : (b.id == x) with
      | true =>
          have hbx : b.id = x := by simpa using hb
          have hnil : rest.filter (fun a => a.id == x) = [] := by
            refine List.filter_eq_nil_iff.2 fun a ha h => ?_
            have hax : a.id = x := by simpa using h
            refine hids.1 ?_
            have hba : b.id = a.id := by rw [hbx, hax]
            rw [hba]
            exact List.mem_map_of_mem Addon.id ha
          simp [List.filter_cons, List.find?_cons, hb, hnil]
      | false =>
          simp [List.filter_cons, List.find?_cons, hb, ih hids.2]

theorem sel_sum_eq_filter_sum (avail : List Addon) (sel : List String)
    (hsel : sel.Nodup) (hids : (avail.map Addon.id).Nodup) :
    (sel.map fun x => ((avail.find? fun a => a.id == x).map Addon.price).getD 0).sum =
      ((avail.filter fun a => decide (a.id ∈ sel)).map Addon.price).sum := by
  induction sel with
  | nil => simp
  | cons x rest ih =>
      obtain ⟨hx, hrest⟩ := List.nodup_cons.1 hsel
      have hsplit := sum_map_filter_or avail (fun a => a.id == x)
        (fun a => decide (a.id ∈ rest)) ?_
      · have hcongr : avail.filter (fun a => decide (a.id ∈ x :: rest)) =
            avail.filter (fun a => (a.id == x) || decide (a.id ∈ rest)) := by
          refine List.filter_congr fun a _ => ?_
          by_cases h1 : a.id = x <;> by_cases h2 : a.id ∈ rest <;> simp [h1, h2]
        rw [List.map_cons, List.sum_cons, hcongr, hsplit, ih hrest,
          sum_filter_id_eq_get_find x avail hids]
      · intro a ha h
        obtain ⟨h1, h2⟩ := h
        have hax : a.id = x := by simpa using h1
        exact hx (by simpa [hax] using h2)

theorem sum_map_price_int (l : List Addon) (h : ∀ a ∈ l, ∃ n : ℤ, a.price = (n : ℚ)) :
    ∃ n : ℤ, (l.map Addon.price).sum = (n : ℚ) := by
  induction l with
  | nil => exact ⟨0, by simp⟩
  | cons b rest ih =>
      obtain ⟨nb, hb⟩ := h b (List.mem_cons_self b rest)
      obtain ⟨nr, hr⟩ := ih fun a ha => h a (List.mem_cons_of_mem b ha)
      refine ⟨nb + nr, ?_⟩
      rw [List.map_cons, List.sum_cons, hb, hr]
      push_cast
      ring

/-- C8: when the available add-ons have pairwise distinct ids, the selected
ids are pairwise distinct, and prices are whole currency units, addonsPrice
equals the sum of the prices of the available add-ons whose id is selected;
a selected id matching no available add-on contributes 0 (and the model is
a total function — no error is possible). -/
theorem C8_addonsPrice_is_filtered_sum (dep : Option Departure) (tour : Tour)
    (sel : List String) (hsel : sel.Nodup)
    (hids : ((availableAddons dep tour).map Addon.id).Nodup)
    (hint : ∀ a ∈ availableAddons dep tour, ∃ n : ℤ, a.price = (n : ℚ)) :
    (((addonsPrice dep tour sel : ℤ) : ℚ) =
      (((availableAddons dep tour).filter fun a =>
        decide (a.id ∈ sel)).map Addon.price).sum) ∧
    ∀ x, ((availableAddons dep tour).find? fun a => a.id == x) = none →
      addonsPrice dep tour (x :: sel) = addonsPrice dep tour sel := by
  constructor
  · obtain ⟨n, hn⟩ := sum_map_price_int
      ((availableAddons dep tour).filter fun a => decide (a.id ∈ sel))
      (fun a ha => hint a (List.mem_of_mem_filter ha))
    have hmap : (sel.map fun x =>
        jsNumOr (((availableAddons dep tour).find? fun a => a.id == x).map Addon.price) 0) =
        sel.map fun x =>
          (((availableAddons dep tour).find? fun a => a.id == x).map Addon.price).getD 0 :=
      List.map_congr_left fun x _ => jsNumOr_getD _
    unfold addonsPrice
    rw [foldl_add_sum, zero_add, hmap, sel_sum_eq_filter_sum _ _ hsel hids, hn, jsRound_intCast]
  · intro x hx
    unfold addonsPrice
    rw [List.foldl_cons, hx]
    simp [jsNumOr]

/-- An available add-on used by the C8 witness. -/
def addonA : Addon := { id := "addon-a", name := "City Tour", price := 100 }

/-- A second available add-on used by the C8 witness. -/
def addonB : Addon := { id := "addon-b", name := "Dinner", price := 250 }

/-- The tour used by the C8 witness, offering two add-ons. -/
def tourC8 : Tour :=
  { id := "tour-c8", pricePerPerson := 10, pricingTiers := [],
    childWithBed := 0, childWithoutBed := 0, addons := [addonA, addonB],
    minTravelers := 1, maxTravelers := 10, departures := none }

/-- Witness for C8: selecting "addon-b" together with an id that matches
nothing gives the filtered sum, and prepending another unknown id leaves
addonsPrice unchanged. -/
theorem C8_witness :
    (((addonsPrice none tourC8 ["addon-b", "missing"] : ℤ) : ℚ) =
      (((availableAddons none tourC8).filter fun a =>
        decide (a.id ∈ ["addon-b", "missing"])).map Addon.price).sum) ∧
    addonsPrice none tourC8 ("missing2" :: ["addon-a"]) =
      addonsPrice none tourC8 ["addon-a"] := by
  constructor
  · refine (C8_addonsPrice_is_filtered_sum none tourC8 ["addon-b", "missing"]
      (by decide) (by decide) ?_).1
    intro a ha
    simp [availableAddons, tourC8, addonA, addonB] at ha
    rcases ha with rfl | rfl
    · exact ⟨100, by norm_num⟩
    · exact ⟨250, by norm_num⟩
  · refine (C8_addonsPrice_is_filtered_sum none tourC8 ["addon-a"]
      (by decide) (by decide) ?_).2 "missing2" (by decide)
    intro a ha
    simp [availableAddons, tourC8, addonA, addonB] at ha
    rcases ha with rfl | rfl
    · exact ⟨100, by norm_num⟩
    · exact ⟨250, by norm_num⟩

/-- The `TourDetail.tsx` component state read by the booking handler and
the event handlers. -/
structure UiState where
  selectedDate : String
  adults : ℕ
  childrenWithBed : ℕ
  childrenWithoutBed : ℕ
  selectedRoomConfig : Option RoomConfig
  selectedAddons : List String
  customerName : String
  customerEmail : String
  customerPhone : String
deriving DecidableEq, Repr

/-- The booking payload `handleBooking` assembles and hands to
`onBookingComplete`. -/
structure BookingData where
  tourId : String
  customerName : String
  customerEmail : String
  customerPhone : String
  departureDate : String
  adults : ℕ
  childrenWithBed : ℕ
  childrenWithoutBed : ℕ
  roomConfiguration : Option RoomConfig
  addons : List String
  basePrice : ℤ
  childrenPrice : ℤ
  roomPrice : ℚ
  addonsPrice : ℤ
  totalPrice : ℤ
deriving DecidableEq, Repr

/-- Result of `handleBooking`: a validation error message, or a forwarded
booking request. -/
inductive BookingOutcome where
  | error (msg : String)
  | proceed (data : BookingData)
deriving DecidableEq, Repr

/-- Whether the handler forwarded a booking request. -/
def BookingOutcome.isProceed : BookingOutcome → Bool
  | .proceed _ => true
  | .error _ => false

/-- `handleBooking` of `TourDetail.tsx`: the validation checks in source
order (date, room selection when adults > 0, minimum travelers, maximum
travelers, contact details), then the booking payload. -/
def handleBooking (tour : Tour) (st : UiState) : BookingOutcome :=
  if st.selectedDate = "" then .error "Please select a departure date"
  else if st.selectedRoomConfig = none ∧ 0 < st.adults then
    .error "Please select a room configuration"
  else if st.adults + st.childrenWithBed + st.childrenWithoutBed < tour.minTravelers then
    .error ("Minimum " ++ toString tour.minTravelers ++ " travelers required")
  else if tour.maxTravelers < st.adults + st.childrenWithBed + st.childrenWithoutBed then
    .error ("Maximum " ++ toString tour.maxTravelers ++ " travelers allowed")
  else if st.customerName = "" ∨ st.customerEmail = "" ∨ st.customerPhone = "" then
    .error "Please fill in all contact details"
  else
    let dep := getSelectedDeparture tour st.selectedDate
    .proceed
      { tourId := tour.id,
        customerName := st.customerName,
        customerEmail := st.customerEmail,
        customerPhone := st.customerPhone,
        departureDate := st.selectedDate,
        adults := st.adults,
        childrenWithBed := st.childrenWithBed,
        childrenWithoutBed := st.childrenWithoutBed,
        roomConfiguration := st.selectedRoomConfig,
        addons := st.selectedAddons,
        basePrice := basePrice dep tour st.adults,
        childrenPrice := childrenPrice dep tour st.childrenWithBed st.childrenWithoutBed,
        roomPrice := jsNumOr (st.selectedRoomConfig.map RoomConfig.priceDifference) 0,
        addonsPrice := addonsPrice dep tour st.selectedAddons,
        totalPrice := totalPrice dep tour st.adults st.childrenWithBed
          st.childrenWithoutBed st.selectedRoomConfig st.selectedAddons }

theorem string_append_ne_empty (s t : String) (ht : t ≠ "") : s ++ t ≠ "" := by
  intro h
  apply ht
  have hd : (s ++ t).data = ("" : String).data := congrArg String.data h
  rw [String.data_append] at hd
  have h0 : t.data = [] := (List.append_eq_nil.1 (by simpa using hd)).2
  cases t
  simp_all

/-- C9 amended: the handler forwards a booking request exactly when a
departure date is selected, some room configuration is selected whenever
adults > 0 (the handler does not re-check that its capacity matches the
party size), the traveler total lies within [minTravelers, maxTravelers],
and name, email and phone are non-empty; every rejection carries a
non-empty user-facing message. -/
theorem C9_amended_handler_checks (tour : Tour) (st : UiState) :
    ((handleBooking tour st).isProceed = true ↔
      (st.selectedDate ≠ "" ∧ (0 < st.adults → st.selectedRoomConfig ≠ none) ∧
        tour.minTravelers ≤ st.adults + st.childrenWithBed + st.childrenWithoutBed ∧
        st.adults + st.childrenWithBed + st.childrenWithoutBed ≤ tour.maxTravelers ∧
        st.customerName ≠ "" ∧ st.customerEmail ≠ "" ∧ st.customerPhone ≠ "")) ∧
    ∀ msg, handleBooking tour st = .error msg → msg ≠ "" := by
  constructor
  · unfold handleBooking
    split_ifs with h1 h2 h3 h4 h5
    · simp only [BookingOutcome.isProceed, Bool.false_eq_true, false_iff]
      rintro ⟨hd, -⟩
      exact hd h1
    · simp only [BookingOutcome.isProceed, Bool.false_eq_true, false_iff]
      rintro ⟨-, hcfg, -⟩
      exact hcfg h2.2 h2.1
    · simp only [BookingOutcome.isProceed, Bool.false_eq_true, false_iff]
      rintro ⟨-, -, hmin, -⟩
      omega
    · simp only [BookingOutcome.isProceed, Bool.false_eq_true, false_iff]
      rintro ⟨-, -, -, hmax, -⟩
      omega
    · simp only [BookingOutcome.isProceed, Bool.false_eq_true, false_iff]
      rintro ⟨-, -, -, -, hn, he, hp⟩
      rcases h5 with h | h | h
      · exact hn h
      · exact he h
      · exact hp h
    · simp only [BookingOutcome.isProceed, true_iff]
      push_neg at h5
      exact ⟨h1, fun ha hc => h2 ⟨hc, ha⟩, by omega, by omega, h5.1, h5.2.1, h5.2.2⟩
  · intro msg hmsg
    unfold handleBooking at hmsg
    split_ifs at hmsg
    · cases hmsg
      decide
    · cases hmsg
      decide
    · cases hmsg
      exact string_append_ne_empty _ " travelers required" (by decide)
    · cases hmsg
      exact string_append_ne_empty _ " travelers allowed" (by decide)
    · cases hmsg
      decide

/-- The tour used by the C9 counterexample and witness. -/
def tourC9 : Tour :=
  { id := "tour-c9", pricePerPerson := 10, pricingTiers := [],
    childWithBed := 0, childWithoutBed := 0, addons := [],
    minTravelers := 1, maxTravelers := 10, departures := none }

/-- A state whose selected room configuration (4 singles, capacity 4) does
not match the party needing beds (2 adults, 0 children with bed). -/
def stC9 : UiState :=
  { selectedDate := "2026-01-10", adults := 2, childrenWithBed := 0,
    childrenWithoutBed := 0, selectedRoomConfig := some cfgFourSingle,
    selectedAddons := [], customerName := "Asha", customerEmail := "asha@example.com",
    customerPhone := "9999999999" }

/-- C9 counterexample: the handler forwards the booking although the
selected configuration's capacity (4 beds) differs from
adults + childrenWithBed (2) — the capacity equation of the claim is not
checked by `handleBooking`. -/
theorem C9_counterexample :
    (handleBooking tourC9 stC9).isProceed = true ∧
    stC9.selectedRoomConfig = some cfgFourSingle ∧
    cfgFourSingle.single + 2 * cfgFourSingle.double + 2 * cfgFourSingle.twin ≠
      stC9.adults + stC9.childrenWithBed := by
  refine ⟨?_, rfl, by decide⟩
  decide

/-- A fully valid state for the C9 witness. -/
def stC9ok : UiState :=
  { selectedDate := "2026-01-10", adults := 2, childrenWithBed := 0,
    childrenWithoutBed := 0, selectedRoomConfig := some cfgTwoTwin,
    selectedAddons := [], customerName := "Asha", customerEmail := "asha@example.com",
    customerPhone := "9999999999" }

/-- A state missing its departure date, for the C9 witness. -/
def stC9nodate : UiState :=
  { selectedDate := "", adults := 2, childrenWithBed := 0,
    childrenWithoutBed := 0, selectedRoomConfig := some cfgTwoTwin,
    selectedAddons := [], customerName := "Asha", customerEmail := "asha@example.com",
    customerPhone := "9999999999" }

/-- Witness for C9 amended: a state satisfying all checks is forwarded,
and the date-missing state is rejected with a non-empty message. -/
theorem C9_witness :
    (handleBooking tourC9 stC9ok).isProceed = true ∧
    "Please select a departure date" ≠ "" := by
  constructor
  · exact (C9_amended_handler_checks tourC9 stC9ok).1.mpr
      (by refine ⟨by decide, fun h => by decide, by decide, by decide, by decide, by decide, by decide⟩)
  · exact (C9_amended_handler_checks tourC9 stC9nodate).2
      "Please select a departure date" (by decide)

/-- The UI events of `TourDetail.tsx` that mutate the booking state: the
six passenger stepper buttons (each of which also calls
`handlePassengerChange`, clearing the room selection), date selection,
room selection by the child component, and add-on toggling. -/
inductive UiEvent where
  | adultsInc
  | adultsDec
  | childWithBedInc
  | childWithBedDec
  | childWithoutBedInc
  | childWithoutBedDec
  | selectDate (d : String)
  | selectRoom (c : Option RoomConfig)
  | toggleAddon (addonId : String)
deriving DecidableEq, Repr

/-- The state transition of each event handler: adults are clamped to
[1, 10], child counts to ≥ 0, every passenger handler resets the room
selection, `setSelectedDate` only sets the date, and `handleAddonToggle`
toggles membership of the id. -/
def step (st : UiState) : UiEvent → UiState
  | .adultsInc =>
      { st with adults := min 10 (st.adults + 1), selectedRoomConfig := none }
  | .adultsDec =>
      { st with adults := max 1 (st.adults - 1), selectedRoomConfig := none }
  | .childWithBedInc =>
      { st with childrenWithBed := st.childrenWithBed + 1, selectedRoomConfig := none }
  | .childWithBedDec =>
      { st with childrenWithBed := max 0 (st.childrenWithBed - 1), selectedRoomConfig := none }
  | .childWithoutBedInc =>
      { st with childrenWithoutBed := st.childrenWithoutBed + 1, selectedRoomConfig := none }
  | .childWithoutBedDec =>
      { st with childrenWithoutBed := max 0 (st.childrenWithoutBed - 1), selectedRoomConfig := none }
  | .selectDate d => { st with selectedDate := d }
  | .selectRoom c => { st with selectedRoomConfig := c }
  | .toggleAddon addonId =>
      { st with selectedAddons :=
          if st.selectedAddons.contains addonId then
            st.selectedAddons.filter fun x => x != addonId
          else st.selectedAddons ++ [addonId] }

/-- The events fired by the passenger stepper buttons. -/
def isPassengerEvent : UiEvent → Prop
  | .adultsInc => True
  | .adultsDec => True
  | .childWithBedInc => True
  | .childWithBedDec => True
  | .childWithoutBedInc => True
  | .childWithoutBedDec => True
  | .selectDate _ => False
  | .selectRoom _ => False
  | .toggleAddon _ => False

/-- A state with a configuration selected for party size 4, used by the
C10 counterexample. -/
def stC10 : UiState :=
  { selectedDate := "2026-01-10", adults := 4, childrenWithBed := 0,
    childrenWithoutBed := 0, selectedRoomConfig := some cfgTwoDouble,
    selectedAddons := [], customerName := "", customerEmail := "",
    customerPhone := "" }

/-- C10 counterexample: selecting a new departure date does not reset the
room selection — after `setSelectedDate` the previously selected
configuration is still selected, contradicting the claim that any date
selection resets it to null. -/
theorem C10_counterexample :
    (step stC10 (.selectDate "2026-02-14")).selectedRoomConfig = some cfgTwoDouble ∧
    (step stC10 (.selectDate "2026-02-14")).selectedDate = "2026-02-14" ∧
    some cfgTwoDouble ≠ (none : Option RoomConfig) := by
  refine ⟨by decide, by decide, by decide⟩

/-- C10 amended: every passenger-count event immediately resets the room
selection to "no selection"; selecting a departure date leaves both the
selection and the passenger counts unchanged, so no stale configuration
belonging to a different party size can arise from it. -/
theorem C10_amended_reset_on_passenger_change (st : UiState) (e : UiEvent) :
    (isPassengerEvent e → (step st e).selectedRoomConfig = none) ∧
    (∀ d, (step st (.selectDate d)).selectedRoomConfig = st.selectedRoomConfig ∧
      (step st (.selectDate d)).adults = st.adults ∧
      (step st (.selectDate d)).childrenWithBed = st.childrenWithBed ∧
      (step st (.selectDate d)).childrenWithoutBed = st.childrenWithoutBed) := by
  constructor
  · intro he
    cases e
    case adultsInc => rfl
    case adultsDec => rfl
    case childWithBedInc => rfl
    case childWithBedDec => rfl
    case childWithoutBedInc => rfl
    case childWithoutBedDec => rfl
    case selectDate d => exact he.elim
    case selectRoom c => exact he.elim
    case toggleAddon a => exact he.elim
  · intro d
    exact ⟨rfl, rfl, rfl, rfl⟩


/-- Witness for C10 amended: after an adults increment from the stC10
state, the selection is cleared. -/
theorem C10_witness :
    (step stC10 UiEvent.adultsInc).selectedRoomConfig = none :=
  (C10_amended_reset_on_passenger_change stC10 UiEvent.adultsInc).1 trivial
